import Mathlib

/-!
# Verification of the DownloadsCleaner engine

Shallow embedding of `src/downloadsCleaner.py` (class `DownloadsCleaner`).

Modelling conventions:
* Filesystem paths are lists of components (`List String`); `os.path.join root name`
  is `root ++ [name]` and `os.path.basename` is `List.getLastD`.  `pathStr` renders a
  path the way it appears in log messages.
* Timestamps (`time.time()`, `os.path.getmtime`) are integer seconds since the
  epoch (sub-second float precision plays no role in any property considered); an
  unreadable timestamp (the `except` branch in `file_has_expired`) is `Option.none`.
* The side effects of a run are an event trace (`Event`): log records (distinguishing
  the test-mode `print` from the live append to the log file), `os.makedirs`,
  `shutil.move` attempts and `send2trash` attempts.  Failing library calls are driven
  by boolean oracles in `World` (the `except` branches of the source).
* The GUI (`tkinter`) is out of the model; the yes/no dialog of `show_popup` is the
  `deleteAnswer` oracle (`True` = the user asked to delete, as in the source).
-/

/-- Kind of a directory entry, after `entry.is_file()` / `entry.is_dir()`:
a scandir entry may be neither (e.g. a broken symlink). -/
inductive EKind where
  | file
  | dir
  | other
deriving DecidableEq

/-- A snapshot of one immediate child of the scanned directory
(`FileSystemEntry` of the spec): name, kind, and last-modification time
(`none` when `os.path.getmtime` raises). -/
structure Entry where
  name : String
  kind : EKind
  mtime : Option Int
deriving DecidableEq

/-- The configuration fields of the `DownloadsCleaner` object that the engine reads:
`self.test_mode`, `self.months_threshold` and the scan root `self.dir_entry.get()`. -/
structure Cleaner where
  test_mode : Bool
  months_threshold : Int
  dir_entry : List String

/-- The ambient world of one run: the clock, whether the scan root exists, the answer
of the yes/no deletion dialog, and success oracles for `send2trash` and
`shutil.move` (false = the library call raises). -/
structure World where
  now : Int
  scanExists : Bool
  deleteAnswer : List String → Bool
  trashOk : List String → Bool
  moveOk : List String → Bool

/-- Observable effects of a run, in order of occurrence. -/
inductive Event where
  | printLog (msg : String)
  | fileLog (msg : String)
  | mkdir (path : List String)
  | moveAttempt (src dst : List String) (ok : Bool)
  | trashAttempt (path : List String) (ok : Bool)
deriving DecidableEq

/-- An event that mutates the filesystem: appending to the log file, creating a
directory, or a move/trash call that succeeded (a raising call changed nothing). -/
def Event.isMutation : Event → Bool
  | .printLog _ => false
  | .fileLog _ => true
  | .mkdir _ => true
  | .moveAttempt _ _ ok => ok
  | .trashAttempt _ ok => ok

/-- Recognizes a `shutil.move` attempt. -/
def Event.isMoveAttempt : Event → Bool
  | .moveAttempt _ _ _ => true
  | _ => false

/-- Recognizes a `shutil.move` attempt or an `os.makedirs` call, the two effects of
a file placement. -/
def Event.isMoveOrMkdir : Event → Bool
  | .moveAttempt _ _ _ => true
  | .mkdir _ => true
  | _ => false

/-- Recognizes an `os.makedirs` call. -/
def Event.isMkdir : Event → Bool
  | .mkdir _ => true
  | _ => false

/-- Events a test-mode (simulate) run can contain: a printed log line or a
directory creation. -/
def Event.isPrintOrMkdir : Event → Bool
  | .printLog _ => true
  | .mkdir _ => true
  | _ => false

/-- A filesystem operation on the scanned entries or their destinations (directory
creation, move attempt, trash attempt), as opposed to logging. -/
def Event.isFsOp : Event → Bool
  | .mkdir _ => true
  | .moveAttempt _ _ _ => true
  | .trashAttempt _ _ => true
  | _ => false

/-- Renders a component path as the string that appears in log messages. -/
def pathStr (p : List String) : String := String.intercalate "/" p

/-- `pat` is an initial segment of `s` (structural `str.startswith` over chars). -/
def strStartsWithAux : List Char → List Char → Bool
  | [], _ => true
  | _ :: _, [] => false
  | p :: ps, c :: cs => p == c && strStartsWithAux ps cs

/-- `s.startswith(pat)` of Python. -/
def strStartsWith (s pat : String) : Bool := strStartsWithAux pat.data s.data

/-- `str.lower` of Python, restricted to ASCII case mapping (all extensions in the
registry are ASCII). -/
def lowerString (s : String) : String := String.mk (s.data.map Char.toLower)

/-- Index of the last `.` in a character list (`p.rfind('.')` of CPython). -/
def rfindDot : List Char → Option Nat
  | [] => none
  | c :: cs =>
    match rfindDot cs with
    | some i => some (i + 1)
    | none => if c == '.' then some 0 else none

/-- The extension part of `os.path.splitext` applied to a basename: the suffix from
the last dot, unless every character before that dot is itself a dot (leading dots
do not start an extension: `.bashrc` has no extension). -/
def splitextExt (name : String) : String :=
  match rfindDot name.data with
  | none => ""
  | some i =>
    if (name.data.take i).all (fun c => c == '.') then ""
    else String.mk (name.data.drop i)

/-- `self.folder_mapping` of the source, in insertion order (Python dicts preserve
it); the extension sets become lists, membership being all the source uses. -/
def folder_mapping : List (String × List String) :=
  [("Images", [".jpg", ".jpeg", ".png", ".gif", ".bmp", ".svg", ".webp"]),
   ("Music", [".mp3", ".wav", ".flac", ".aac", ".ogg", ".m4a"]),
   ("Videos", [".mp4", ".avi", ".mov", ".mkv", ".wmv", ".flv", ".webm"]),
   ("Documents", [".pdf", ".docx", ".xlsx", ".pptx", ".txt"]),
   ("Others", [])]

/-- The classification loop of `get_destination_folder` (lines 150-153), at the level
of category labels: first rule whose extension set contains the (already lowercased)
extension, else the catch-all `"Others"`. -/
def classifyLowered (file_ext : String) : String :=
  match folder_mapping.find? (fun p => decide (file_ext ∈ p.2)) with
  | some p => p.1
  | none => "Others"

/-- `classify` of the spec: lowercase the extension (line 149), then run the
first-match loop over `folder_mapping`. -/
def classify (e : String) : String := classifyLowered (lowerString e)

/-- Civil-from-days conversion (proleptic Gregorian), the standard algorithm used by
C libraries; all divisions truncate toward zero exactly as in its reference form. -/
def civilFromDays (z0 : Int) : Int × Int × Int :=
  let z := z0 + 719468
  let era := (if 0 ≤ z then z else z - 146096) / 146097
  let doe := z - era * 146097
  let yoe := (doe - doe / 1460 + doe / 36524 - doe / 146096) / 365
  let y := yoe + era * 400
  let doy := doe - (365 * yoe + yoe / 4 - yoe / 100)
  let mp := (5 * doy + 2) / 153
  let d := doy - (153 * mp + 2) / 5 + 1
  let m := if mp < 10 then mp + 3 else mp - 9
  (if m ≤ 2 then y + 1 else y, m, d)

/-- Full English month name (`%B` of `strftime`). -/
def monthName (m : Int) : String :=
  if m = 1 then "January" else if m = 2 then "February" else if m = 3 then "March"
  else if m = 4 then "April" else if m = 5 then "May" else if m = 6 then "June"
  else if m = 7 then "July" else if m = 8 then "August" else if m = 9 then "September"
  else if m = 10 then "October" else if m = 11 then "November" else if m = 12 then "December"
  else ""

/-- Zero-padded two-digit rendering (`%d` of `strftime`). -/
def pad2 (n : Int) : String := if n < 10 then "0" ++ toString n else toString n

/-- `time.strftime("%B %d, %Y", time.localtime(t))` of line 88-89, modelled with the
local timezone at UTC (the timezone offset is environment state outside the program). -/
def formatDate (t : Int) : String :=
  let days := Int.fdiv t 86400
  let ymd := civilFromDays days
  monthName ymd.2.1 ++ " " ++ pad2 ymd.2.2 ++ ", " ++ toString ymd.1

/-- `log_action` (lines 66-74): in test mode the message is printed, otherwise it is
appended to the log file (a filesystem write) — the trace keeps the distinction. -/
def log_action (c : Cleaner) (message : String) : Event :=
  if c.test_mode then Event.printLog message else Event.fileLog message

/-- `file_has_expired` (lines 80-93): compares `now - mtime` against
`months_threshold * 30 * 24 * 60 * 60` seconds and formats the modification date;
the `except` branch (unreadable timestamp) yields `(False, "Unknown")`. -/
def file_has_expired (c : Cleaner) (current_time : Int) (mtime : Option Int) :
    Bool × String :=
  match mtime with
  | some last_modified_time =>
    let threshold_seconds : Int := c.months_threshold * 30 * 24 * 60 * 60
    (decide (current_time - last_modified_time ≥ threshold_seconds),
     formatDate last_modified_time)
  | none => (false, "Unknown")

/-- `show_popup` (lines 95-113): asks the yes/no dialog; on yes it logs `Deleted:`,
and outside test mode calls `send2trash`, logging the error if that raises; it then
returns `false` (file counted as deleted) in every yes-branch.  On no it logs
`Kept:` and returns `true`. -/
def show_popup (c : Cleaner) (w : World) (file_path : List String) :
    List Event × Bool :=
  let result := w.deleteAnswer file_path
  if result then
    (log_action c ("Deleted: " ++ pathStr file_path) ::
      (if c.test_mode then []
       else if w.trashOk file_path then [Event.trashAttempt file_path true]
       else [Event.trashAttempt file_path false, log_action c "Error deleting file"]),
     false)
  else
    ([log_action c ("Kept: " ++ pathStr file_path)], true)

/-- `get_destination_folder` (lines 144-153): folders go to `Downloaded Folders`;
files are classified by lowercased `splitext` extension, first-match over
`folder_mapping`, with `Downloaded Others` as fallthrough. -/
def get_destination_folder (c : Cleaner) (item_path : List String) (is_folder : Bool) :
    List String :=
  if is_folder then c.dir_entry ++ ["Downloaded Folders"]
  else
    let file_ext := lowerString (splitextExt (item_path.getLastD ""))
    match folder_mapping.find? (fun p => decide (file_ext ∈ p.2)) with
    | some p => c.dir_entry ++ ["Downloaded " ++ p.1]
    | none => c.dir_entry ++ ["Downloaded Others"]

/-- `move_item` (lines 115-142): skips names with the reserved log-name start;
otherwise computes the destination, calls `os.makedirs` when the destination folder
does not exist yet (in every mode — the call is not guarded by test mode), logs
`Moved:`, and outside test mode attempts `shutil.move`, logging the error if it
raises.  Returns the events and the updated set of existing directories. -/
def move_item (c : Cleaner) (w : World) (dirs : List (List String))
    (item_path : List String) (is_folder : Bool) :
    List Event × List (List String) :=
  let item_name := item_path.getLastD ""
  if strStartsWith item_name "download_organizer_log_" then
    ([log_action c ("Skipped moving log file: " ++ pathStr item_path)], dirs)
  else
    let dest_folder := get_destination_folder c item_path is_folder
    let created :=
      if dirs.contains dest_folder then (([] : List Event), dirs)
      else ([Event.mkdir dest_folder], dest_folder :: dirs)
    let dest_path := dest_folder ++ [item_name]
    let moveEvents :=
      if c.test_mode then []
      else if w.moveOk item_path then [Event.moveAttempt item_path dest_path true]
      else [Event.moveAttempt item_path dest_path false,
            log_action c "Error moving item"]
    (created.1 ++
       log_action c ("Moved: " ++ pathStr item_path ++ " → " ++ pathStr dest_path) ::
         moveEvents,
     created.2)

/-- The per-entry body of the scan loop (lines 168-183): files are checked for
expiry, a stale file goes through `show_popup` and is skipped (`continue`) when
deleted, surviving files and all directories go through `move_item`; an entry that
is neither file nor directory is untouched. -/
def processEntry (c : Cleaner) (w : World) (dirs : List (List String)) (e : Entry) :
    List Event × List (List String) :=
  let item_path := c.dir_entry ++ [e.name]
  match e.kind with
  | .file =>
    let fe := file_has_expired c w.now e.mtime
    if fe.1 then
      let pr := show_popup c w item_path
      if pr.2 then
        let mv := move_item c w dirs item_path false
        (pr.1 ++ mv.1, mv.2)
      else (pr.1, dirs)
    else move_item c w dirs item_path false
  | .dir => move_item c w dirs item_path true
  | .other => ([], dirs)

/-- Sequential processing of the scandir snapshot, threading the set of existing
destination directories through the pass. -/
def runEntries (c : Cleaner) (w : World) (dirs : List (List String)) :
    List Entry → List Event × List (List String)
  | [] => ([], dirs)
  | e :: es =>
    let r₁ := processEntry c w dirs e
    let r₂ := runEntries c w r₁.2 es
    (r₁.1 ++ r₂.1, r₂.2)

/-- `organize_downloads` (lines 155-189): if the scan root does not exist, log the
error and return; otherwise log the start banner, process the snapshot of entries,
and log the completion banner. -/
def organize_downloads (c : Cleaner) (w : World) (dirs : List (List String))
    (entries : List Entry) : List Event :=
  if !w.scanExists then
    [log_action c ("ERROR: Directory \x27" ++ pathStr c.dir_entry ++ "\x27 not found.")]
  else
    log_action c "\n=== File and Folder Organization Started ===" ::
      ((runEntries c w dirs entries).1 ++
        [log_action c "=== File and Folder Organization Completed ===\n"])

/-- Effect of the `shutil.move` call of line 138/140 on the contents of the
destination directory, files represented as (name, content id): Python's
`shutil.move` to an existing destination file replaces it (`os.rename` on POSIX, the
`copy2`-then-unlink fallback elsewhere) — no collision handling exists in the source. -/
def shutil_move_into (dest : List (String × Nat)) (f : String × Nat) :
    List (String × Nat) :=
  f :: dest.filter (fun q => q.1 != f.1)

/-- The planned destinations of a pass: the `Moved:` log records of its trace (in
simulate mode these are the only record of the intended moves). -/
def movedLogs (evs : List Event) : List String :=
  evs.filterMap fun ev =>
    match ev with
    | .printLog m => if strStartsWith m "Moved: " then some m else none
    | .fileLog m => if strStartsWith m "Moved: " then some m else none
    | _ => none

/-! ## Helper lemmas -/

lemma classify_eq_lowered (e : String) : classify e = classifyLowered (lowerString e) := rfl

lemma classifyLowered_of_mem (label : String) (exts : List String) (s : String)
    (hm : (label, exts) ∈ folder_mapping) (hs : s ∈ exts) : classifyLowered s = label := by
  fin_cases hm <;> fin_cases hs <;> rfl

lemma classifyLowered_of_not_mem (s : String)
    (h : ∀ p ∈ folder_mapping, s ∉ p.2) : classifyLowered s = "Others" := by
  have hf : folder_mapping.find? (fun p => decide (s ∈ p.2)) = none := by
    rw [List.find?_eq_none]
    intro p hp
    simpa using h p hp
  simp [classifyLowered, hf]

/-! ## Claim theorems -/

/-- C1: classification of an extension string is case-insensitive and first-match
over `folder_mapping`: a lowercased extension found in a registered category's set
classifies to that category's label, an unregistered one to the catch-all
`"Others"`, extensions with the same lowercase form classify identically, and in
particular `.JPG` and `.jpg` both classify to `"Images"`. -/
theorem classify_case_insensitive_first_match :
    (∀ label exts e, (label, exts) ∈ folder_mapping → lowerString e ∈ exts →
      classify e = label) ∧
    (∀ e, (∀ p ∈ folder_mapping, lowerString e ∉ p.2) → classify e = "Others") ∧
    (∀ e₁ e₂, lowerString e₁ = lowerString e₂ → classify e₁ = classify e₂) ∧
    classify ".JPG" = classify ".jpg" := by
  refine ⟨?_, ?_, ?_, by decide⟩
  · intro label exts e hm he
    exact classifyLowered_of_mem label exts (lowerString e) hm he
  · intro e h
    exact classifyLowered_of_not_mem (lowerString e) h
  · intro e₁ e₂ h
    rw [classify_eq_lowered, classify_eq_lowered, h]

/-- Witness for C1 at concrete inputs. -/
theorem classify_case_insensitive_first_match_witness :
    classify ".JPG" = "Images" ∧ classify ".xyz" = "Others" :=
  ⟨classify_case_insensitive_first_match.1 "Images"
      [".jpg", ".jpeg", ".png", ".gif", ".bmp", ".svg", ".webp"] ".JPG"
      (by decide) (by decide),
   classify_case_insensitive_first_match.2.1 ".xyz" (by decide)⟩

/-- C2: for a readable modification time, `file_has_expired` returns `true` exactly
when `now - mtime` is at least `months * 30` days in seconds (2592000 seconds per
month), together with the formatted modification date. -/
theorem file_has_expired_correct (c : Cleaner) (now t : Int) :
    ((file_has_expired c now (some t)).1 = true ↔
      now - t ≥ c.months_threshold * 2592000) ∧
    (file_has_expired c now (some t)).2 = formatDate t := by
  refine ⟨?_, rfl⟩
  have h30 : c.months_threshold * 30 * 24 * 60 * 60 = c.months_threshold * 2592000 := by
    ring
  simp [file_has_expired, h30]

/-- C9: staleness is monotone in the threshold: a file stale at the configured
months threshold is also stale at any smaller threshold, with the same clock and
modification time. -/
theorem is_stale_monotonic (c : Cleaner) (now t T' : Int)
    (hT : T' < c.months_threshold)
    (h : (file_has_expired c now (some t)).1 = true) :
    (file_has_expired { c with months_threshold := T' } now (some t)).1 = true := by
  simp only [file_has_expired, ge_iff_le, decide_eq_true_eq] at h ⊢
  omega

/-- Witness for C9: stale at 2 months, hence stale at 1 month. -/
theorem is_stale_monotonic_witness :
    (file_has_expired { test_mode := false, months_threshold := 1, dir_entry := [] }
        6000000 (some 0)).1 = true :=
  is_stale_monotonic ⟨false, 2, []⟩ 6000000 0 1 (by decide) (by decide)

/-- C10: the `Moved:` log record is emitted unconditionally — in simulate mode and
when the move later raises — and lies in the part of `move_item`'s trace strictly
before any `shutil.move` attempt; when the move raises in live mode, the failure is
logged as a separate record. -/
theorem moved_log_before_attempt (c : Cleaner) (w : World) (dirs : List (List String))
    (item_path : List String) (is_folder : Bool)
    (h : strStartsWith (item_path.getLastD "") "download_organizer_log_" = false) :
    log_action c ("Moved: " ++ pathStr item_path ++ " → " ++
        pathStr (get_destination_folder c item_path is_folder ++ [item_path.getLastD ""]))
      ∈ ((move_item c w dirs item_path is_folder).1.takeWhile fun ev => !ev.isMoveAttempt) ∧
    (c.test_mode = false → w.moveOk item_path = false →
      log_action c "Error moving item" ∈ (move_item c w dirs item_path is_folder).1) := by
  simp only [move_item, h, Bool.false_eq_true, if_false]
  cases hdc : dirs.contains (get_destination_folder c item_path is_folder) <;>
    cases htm : c.test_mode <;>
      cases hmo : w.moveOk item_path <;>
        simp [log_action, htm, hmo, List.takeWhile_cons, Event.isMoveAttempt]

/-- Witness for C10: live mode, failing move, a regular file. -/
theorem moved_log_before_attempt_witness :
    log_action ⟨false, 3, ["dl"]⟩ ("Moved: " ++ pathStr ["dl", "a.jpg"] ++ " → " ++
        pathStr (get_destination_folder ⟨false, 3, ["dl"]⟩ ["dl", "a.jpg"] false ++
          [(["dl", "a.jpg"] : List String).getLastD ""]))
      ∈ ((move_item ⟨false, 3, ["dl"]⟩ ⟨0, true, fun _ => true, fun _ => true, fun _ => false⟩
          [] ["dl", "a.jpg"] false).1.takeWhile fun ev => !ev.isMoveAttempt) ∧
    ((⟨false, 3, ["dl"]⟩ : Cleaner).test_mode = false →
      (⟨0, true, fun _ => true, fun _ => true, fun _ => false⟩ : World).moveOk ["dl", "a.jpg"] = false →
      log_action ⟨false, 3, ["dl"]⟩ "Error moving item"
        ∈ (move_item ⟨false, 3, ["dl"]⟩ ⟨0, true, fun _ => true, fun _ => true, fun _ => false⟩
            [] ["dl", "a.jpg"] false).1) :=
  moved_log_before_attempt ⟨false, 3, ["dl"]⟩ ⟨0, true, fun _ => true, fun _ => true, fun _ => false⟩
    [] ["dl", "a.jpg"] false (by decide)

lemma show_popup_test_all (c : Cleaner) (w : World) (p : List String)
    (h : c.test_mode = true) :
    ((show_popup c w p).1.all Event.isPrintOrMkdir) = true := by
  cases hd : w.deleteAnswer p <;>
    simp [show_popup, log_action, h, hd, Event.isPrintOrMkdir]

lemma move_item_test_all (c : Cleaner) (w : World) (dirs : List (List String))
    (p : List String) (f : Bool) (h : c.test_mode = true) :
    ((move_item c w dirs p f).1.all Event.isPrintOrMkdir) = true := by
  cases hs : strStartsWith (p.getLastD "") "download_organizer_log_" <;>
    cases hdc : dirs.contains (get_destination_folder c p f) <;>
      simp only [move_item, log_action, h, hs, hdc] <;>
        simp [Event.isPrintOrMkdir]

lemma processEntry_test_all (c : Cleaner) (w : World) (dirs : List (List String))
    (e : Entry) (h : c.test_mode = true) :
    ((processEntry c w dirs e).1.all Event.isPrintOrMkdir) = true := by
  obtain ⟨name, kind, mtime⟩ := e
  cases kind
  case file =>
    simp only [processEntry]
    cases hexp : (file_has_expired c w.now mtime).1
    · simp only [hexp, Bool.false_eq_true, if_false]
      exact move_item_test_all c w dirs (c.dir_entry ++ [name]) false h
    · simp only [hexp, if_true]
      cases hpd : (show_popup c w (c.dir_entry ++ [name])).2
      · simp only [hpd, Bool.false_eq_true, if_false]
        exact show_popup_test_all c w (c.dir_entry ++ [name]) h
      · simp only [hpd, if_true, List.all_append]
        rw [show_popup_test_all c w (c.dir_entry ++ [name]) h,
          move_item_test_all c w dirs (c.dir_entry ++ [name]) false h]
        rfl
  case dir =>
    simp only [processEntry]
    exact move_item_test_all c w dirs (c.dir_entry ++ [name]) true h
  case other =>
    simp [processEntry]

lemma runEntries_test_all (c : Cleaner) (w : World) (h : c.test_mode = true) :
    ∀ (entries : List Entry) (dirs : List (List String)),
      ((runEntries c w dirs entries).1.all Event.isPrintOrMkdir) = true := by
  intro entries
  induction entries with
  | nil => intro dirs; simp [runEntries]
  | cons e es ih =>
    intro dirs
    simp [runEntries, List.all_append, processEntry_test_all c w dirs e h, ih]

/-- C3 amended: in simulate (test) mode every event of the organize pass is a
printed log line or a directory creation — no file is moved, none is trashed, no
log file is written; directory creation, however, does happen in simulate mode. -/
theorem simulate_mode_events (c : Cleaner) (w : World) (dirs : List (List String))
    (entries : List Entry) (htest : c.test_mode = true) :
    ((organize_downloads c w dirs entries).all Event.isPrintOrMkdir) = true := by
  cases hse : w.scanExists <;>
    simp [organize_downloads, log_action, htest, hse, List.all_append,
      runEntries_test_all c w htest entries dirs, Event.isPrintOrMkdir]

/-- Witness for C3's amended theorem at a concrete simulate run. -/
theorem simulate_mode_events_witness :
    ((organize_downloads ⟨true, 3, ["dl"]⟩ ⟨0, true, fun _ => false, fun _ => true, fun _ => true⟩
        [] [⟨"a.jpg", EKind.file, some 0⟩]).all Event.isPrintOrMkdir) = true :=
  simulate_mode_events ⟨true, 3, ["dl"]⟩ ⟨0, true, fun _ => false, fun _ => true, fun _ => true⟩
    [] [⟨"a.jpg", EKind.file, some 0⟩] rfl

/-- C3 counterexample: a simulate run does mutate the filesystem — it creates the
missing destination directory (`os.makedirs` runs before the test-mode guard). -/
theorem simulate_mode_mkdir_counterexample :
    Event.mkdir ["dl", "Downloaded Images"] ∈
      organize_downloads ⟨true, 3, ["dl"]⟩ ⟨0, true, fun _ => false, fun _ => true, fun _ => true⟩
        [] [⟨"a.jpg", EKind.file, some 0⟩] ∧
    (Event.mkdir ["dl", "Downloaded Images"]).isMutation = true := by decide

lemma getLastD_append_single (l : List String) (b : String) :
    (l ++ [b]).getLastD "" = b := by
  simp

lemma move_item_log_skip (c : Cleaner) (w : World) (dirs : List (List String))
    (p : List String) (f : Bool)
    (hn : strStartsWith (p.getLastD "") "download_organizer_log_" = true) :
    move_item c w dirs p f =
      ([log_action c ("Skipped moving log file: " ++ pathStr p)], dirs) := by
  have hn2 : strStartsWith (p.getLast?.getD "") "download_organizer_log_" = true := by
    simpa using hn
  simp [move_item, hn2]

lemma show_popup_no_move (c : Cleaner) (w : World) (p : List String) :
    ((show_popup c w p).1.all fun ev => !ev.isMoveOrMkdir) = true := by
  cases hd : w.deleteAnswer p <;> cases htm : c.test_mode <;>
    cases htr : w.trashOk p <;>
      simp [show_popup, log_action, hd, htm, htr, Event.isMoveOrMkdir]

/-- C5 amended: an entry whose name carries the reserved log-name start is never
moved — its processing contains no `shutil.move` attempt and no directory creation,
and leaves the directory set unchanged.  (It is, however, still evaluated for
staleness and can be offered for deletion; see the counterexample.) -/
theorem log_named_file_never_moved (c : Cleaner) (w : World) (dirs : List (List String))
    (e : Entry) (hk : e.kind = EKind.file)
    (hn : strStartsWith e.name "download_organizer_log_" = true) :
    (((processEntry c w dirs e).1.all fun ev => !ev.isMoveOrMkdir) = true) ∧
    (processEntry c w dirs e).2 = dirs := by
  obtain ⟨name, kind, mtime⟩ := e
  subst hk
  have hn' : strStartsWith ((c.dir_entry ++ [name]).getLastD "")
      "download_organizer_log_" = true := by
    rw [getLastD_append_single]; exact hn
  simp only [processEntry]
  cases hexp : (file_has_expired c w.now mtime).1
  · simp only [hexp, Bool.false_eq_true, if_false]
    rw [move_item_log_skip c w dirs _ false hn']
    cases htm : c.test_mode <;> simp [log_action, htm, Event.isMoveOrMkdir]
  · simp only [hexp, if_true]
    cases hpd : (show_popup c w (c.dir_entry ++ [name])).2
    · simp only [hpd, Bool.false_eq_true, if_false]
      exact ⟨show_popup_no_move c w _, by trivial⟩
    · simp only [hpd, if_true]
      rw [move_item_log_skip c w dirs _ false hn']
      refine ⟨?_, by trivial⟩
      simp only [List.all_append, show_popup_no_move c w _, Bool.true_and]
      cases htm : c.test_mode <;> simp [log_action, htm, Event.isMoveOrMkdir]

/-- Witness for C5's amended theorem: a log-named file in a live run. -/
theorem log_named_file_never_moved_witness :
    (((processEntry ⟨false, 3, ["dl"]⟩
        ⟨0, true, fun _ => false, fun _ => true, fun _ => true⟩ []
        ⟨"download_organizer_log_y.txt", EKind.file, some 0⟩).1.all
      fun ev => !ev.isMoveOrMkdir) = true) ∧
    (processEntry ⟨false, 3, ["dl"]⟩
        ⟨0, true, fun _ => false, fun _ => true, fun _ => true⟩ []
        ⟨"download_organizer_log_y.txt", EKind.file, some 0⟩).2 = [] :=
  log_named_file_never_moved ⟨false, 3, ["dl"]⟩
    ⟨0, true, fun _ => false, fun _ => true, fun _ => true⟩ []
    ⟨"download_organizer_log_y.txt", EKind.file, some 0⟩ rfl (by decide)

/-- C5 counterexample: a stale log-named file is evaluated for staleness, offered
for deletion, and sent to trash in a live run — it does not remain in place. -/
theorem log_named_file_trashed_counterexample :
    (processEntry ⟨false, 3, ["dl"]⟩
        ⟨1000000000, true, fun _ => true, fun _ => true, fun _ => true⟩ []
        ⟨"download_organizer_log_x.txt", EKind.file, some 0⟩).1
      = [Event.fileLog "Deleted: dl/download_organizer_log_x.txt",
         Event.trashAttempt ["dl", "download_organizer_log_x.txt"] true] := by decide

/-- C4 amended: when the user answers Delete and the trash call raises, the failure
is logged and the file is treated as deleted, not kept: it is not routed to
placement (its trace is exactly the Deleted record, the failed trash attempt and the
error record — no makedirs, no move), and the pass continues with the remaining
entries over an unchanged directory set. -/
theorem trash_failure_treated_as_deleted (c : Cleaner) (w : World)
    (dirs : List (List String)) (e : Entry) (rest : List Entry)
    (hlive : c.test_mode = false) (hk : e.kind = EKind.file)
    (hexp : (file_has_expired c w.now e.mtime).1 = true)
    (hdel : w.deleteAnswer (c.dir_entry ++ [e.name]) = true)
    (htr : w.trashOk (c.dir_entry ++ [e.name]) = false) :
    (processEntry c w dirs e).1 =
      [Event.fileLog ("Deleted: " ++ pathStr (c.dir_entry ++ [e.name])),
       Event.trashAttempt (c.dir_entry ++ [e.name]) false,
       Event.fileLog "Error deleting file"] ∧
    (processEntry c w dirs e).2 = dirs ∧
    runEntries c w dirs (e :: rest) =
      ((processEntry c w dirs e).1 ++ (runEntries c w dirs rest).1,
       (runEntries c w dirs rest).2) := by
  obtain ⟨name, kind, mtime⟩ := e
  subst hk
  have h2 : (processEntry c w dirs ⟨name, EKind.file, mtime⟩).2 = dirs := by
    simp [processEntry, show_popup, log_action, hexp, hdel, htr, hlive]
  refine ⟨?_, h2, ?_⟩
  · simp [processEntry, show_popup, log_action, hexp, hdel, htr, hlive]
  · simp only [runEntries, h2]

/-- Witness for C4's amended theorem: live run, stale `a.jpg`, Delete answered,
trash raising. -/
theorem trash_failure_treated_as_deleted_witness :
    (processEntry ⟨false, 3, ["dl"]⟩
        ⟨1000000000, true, fun _ => true, fun _ => false, fun _ => true⟩ []
        ⟨"a.jpg", EKind.file, some 0⟩).1 =
      [Event.fileLog ("Deleted: " ++ pathStr (["dl"] ++ ["a.jpg"])),
       Event.trashAttempt (["dl"] ++ ["a.jpg"]) false,
       Event.fileLog "Error deleting file"] ∧
    (processEntry ⟨false, 3, ["dl"]⟩
        ⟨1000000000, true, fun _ => true, fun _ => false, fun _ => true⟩ []
        ⟨"a.jpg", EKind.file, some 0⟩).2 = [] ∧
    runEntries ⟨false, 3, ["dl"]⟩
        ⟨1000000000, true, fun _ => true, fun _ => false, fun _ => true⟩ []
        [⟨"a.jpg", EKind.file, some 0⟩, ⟨"b.txt", EKind.file, some 999999999⟩] =
      ((processEntry ⟨false, 3, ["dl"]⟩
          ⟨1000000000, true, fun _ => true, fun _ => false, fun _ => true⟩ []
          ⟨"a.jpg", EKind.file, some 0⟩).1 ++
        (runEntries ⟨false, 3, ["dl"]⟩
          ⟨1000000000, true, fun _ => true, fun _ => false, fun _ => true⟩ []
          [⟨"b.txt", EKind.file, some 999999999⟩]).1,
       (runEntries ⟨false, 3, ["dl"]⟩
          ⟨1000000000, true, fun _ => true, fun _ => false, fun _ => true⟩ []
          [⟨"b.txt", EKind.file, some 999999999⟩]).2) :=
  trash_failure_treated_as_deleted ⟨false, 3, ["dl"]⟩
    ⟨1000000000, true, fun _ => true, fun _ => false, fun _ => true⟩ []
    ⟨"a.jpg", EKind.file, some 0⟩ [⟨"b.txt", EKind.file, some 999999999⟩]
    rfl rfl (by decide) rfl rfl

/-- C4 counterexample: under a failed trash the entry is not routed to placement —
its exact trace holds no `shutil.move` attempt and no makedirs, only the Deleted
record, the failed trash attempt and the error record. -/
theorem trash_failure_no_placement_counterexample :
    (processEntry ⟨false, 3, ["dl"]⟩
        ⟨1000000000, true, fun _ => true, fun _ => false, fun _ => true⟩ []
        ⟨"a.jpg", EKind.file, some 0⟩).1
      = [Event.fileLog "Deleted: dl/a.jpg",
         Event.trashAttempt ["dl", "a.jpg"] false,
         Event.fileLog "Error deleting file"] ∧
    ((processEntry ⟨false, 3, ["dl"]⟩
        ⟨1000000000, true, fun _ => true, fun _ => false, fun _ => true⟩ []
        ⟨"a.jpg", EKind.file, some 0⟩).1.all fun ev => !ev.isMoveOrMkdir) = true := by
  decide

/-- C7 amended: when the scan root does not exist the pass aborts before touching
any entry — its whole trace is the single error log record, with no directory
creation, no move and no trash; in simulate mode nothing at all is written, but in
live mode that error record is an append to the log file, i.e. a filesystem write. -/
theorem missing_root_aborts (c : Cleaner) (w : World) (dirs : List (List String))
    (entries : List Entry) (h : w.scanExists = false) :
    organize_downloads c w dirs entries =
      [log_action c ("ERROR: Directory \x27" ++ pathStr c.dir_entry ++ "\x27 not found.")] ∧
    ((organize_downloads c w dirs entries).all fun ev => !ev.isFsOp) = true ∧
    (c.test_mode = true →
      ((organize_downloads c w dirs entries).all fun ev => !ev.isMutation) = true) := by
  have h1 : organize_downloads c w dirs entries =
      [log_action c ("ERROR: Directory \x27" ++ pathStr c.dir_entry ++ "\x27 not found.")] := by
    simp [organize_downloads, h]
  refine ⟨h1, ?_, ?_⟩
  · rw [h1]
    cases htm : c.test_mode <;> simp [log_action, htm, Event.isFsOp]
  · intro htm
    rw [h1]
    simp [log_action, htm, Event.isMutation]

/-- Witness for C7's amended theorem: simulate mode, missing root. -/
theorem missing_root_aborts_witness :
    organize_downloads ⟨true, 3, ["nope"]⟩ ⟨0, false, fun _ => true, fun _ => true, fun _ => true⟩ [] []
      = [log_action ⟨true, 3, ["nope"]⟩
          ("ERROR: Directory \x27" ++ pathStr ["nope"] ++ "\x27 not found.")] ∧
    ((organize_downloads ⟨true, 3, ["nope"]⟩ ⟨0, false, fun _ => true, fun _ => true, fun _ => true⟩
        [] []).all fun ev => !ev.isFsOp) = true ∧
    ((⟨true, 3, ["nope"]⟩ : Cleaner).test_mode = true →
      ((organize_downloads ⟨true, 3, ["nope"]⟩ ⟨0, false, fun _ => true, fun _ => true, fun _ => true⟩
          [] []).all fun ev => !ev.isMutation) = true) :=
  missing_root_aborts ⟨true, 3, ["nope"]⟩ ⟨0, false, fun _ => true, fun _ => true, fun _ => true⟩
    [] [] rfl

/-- C7 counterexample: with the root missing and test mode off, the run is not
mutation-free — the error record is appended to the log file. -/
theorem missing_root_logwrite_counterexample :
    organize_downloads ⟨false, 3, ["nope"]⟩ ⟨0, false, fun _ => true, fun _ => true, fun _ => true⟩
        [] []
      = [Event.fileLog "ERROR: Directory \x27nope\x27 not found."] ∧
    ((organize_downloads ⟨false, 3, ["nope"]⟩ ⟨0, false, fun _ => true, fun _ => true, fun _ => true⟩
        [] []).any fun ev => ev.isMutation) = true := by decide

lemma movedLogs_append (a b : List Event) :
    movedLogs (a ++ b) = movedLogs a ++ movedLogs b := by
  simp [movedLogs, List.filterMap_append]

lemma movedLogs_cons_not_moved (msg : String) (l : List Event)
    (h : strStartsWith msg "Moved: " = false) :
    movedLogs (Event.printLog msg :: l) = movedLogs l := by
  simp [movedLogs, h]

lemma movedLogs_printLog_nil (msg : String)
    (h : strStartsWith msg "Moved: " = false) :
    movedLogs [Event.printLog msg] = [] := by
  simp [movedLogs, h]

lemma move_item_movedLogs_indep (c : Cleaner) (w : World) (p : List String) (f : Bool)
    (dirs₁ dirs₂ : List (List String)) :
    movedLogs (move_item c w dirs₁ p f).1 = movedLogs (move_item c w dirs₂ p f).1 := by
  cases hs : strStartsWith (p.getLastD "") "download_organizer_log_" <;>
    cases h1 : dirs₁.contains (get_destination_folder c p f) <;>
      cases h2 : dirs₂.contains (get_destination_folder c p f) <;>
        simp only [move_item, hs, h1, h2] <;>
          simp [movedLogs_append, movedLogs]

lemma processEntry_movedLogs_indep (c : Cleaner) (w : World) (e : Entry)
    (dirs₁ dirs₂ : List (List String)) :
    movedLogs (processEntry c w dirs₁ e).1 = movedLogs (processEntry c w dirs₂ e).1 := by
  obtain ⟨name, kind, mtime⟩ := e
  cases kind
  case file =>
    simp only [processEntry]
    cases hexp : (file_has_expired c w.now mtime).1
    · simp only [hexp, Bool.false_eq_true, if_false]
      exact move_item_movedLogs_indep c w (c.dir_entry ++ [name]) false dirs₁ dirs₂
    · simp only [hexp, if_true]
      cases hpd : (show_popup c w (c.dir_entry ++ [name])).2
      · simp only [hpd, Bool.false_eq_true, if_false]
      · simp only [hpd, if_true]
        rw [movedLogs_append, movedLogs_append,
          move_item_movedLogs_indep c w (c.dir_entry ++ [name]) false dirs₁ dirs₂]
  case dir =>
    simp only [processEntry]
    exact move_item_movedLogs_indep c w (c.dir_entry ++ [name]) true dirs₁ dirs₂
  case other => rfl

lemma runEntries_movedLogs_indep (c : Cleaner) (w : World) :
    ∀ (entries : List Entry) (dirs₁ dirs₂ : List (List String)),
      movedLogs (runEntries c w dirs₁ entries).1 =
        movedLogs (runEntries c w dirs₂ entries).1 := by
  intro entries
  induction entries with
  | nil => intro d₁ d₂; rfl
  | cons e es ih =>
    intro d₁ d₂
    simp only [runEntries]
    rw [movedLogs_append, movedLogs_append, processEntry_movedLogs_indep c w e d₁ d₂,
      ih (processEntry c w d₁ e).2 (processEntry c w d₂ e).2]

/-- C8: a simulate-mode organize pass computes the same planned destinations (the
`Moved:` log records) as a second pass over the same unchanged entries with the same
configuration, clock and answers, whatever the set of already-existing destination
directories in either run — so running the pass twice in simulate mode on an
unchanged directory plans identically both times. -/
theorem simulate_idempotent (c : Cleaner) (w : World)
    (dirs₁ dirs₂ : List (List String)) (entries : List Entry)
    (htest : c.test_mode = true) :
    movedLogs (organize_downloads c w dirs₁ entries) =
      movedLogs (organize_downloads c w dirs₂ entries) := by
  have hb1 : strStartsWith "\n=== File and Folder Organization Started ===" "Moved: "
      = false := by decide
  have hb2 : strStartsWith "=== File and Folder Organization Completed ===\n" "Moved: "
      = false := by decide
  cases hse : w.scanExists
  · simp [organize_downloads, hse]
  · simp only [organize_downloads, hse, log_action, htest, Bool.not_true,
      Bool.false_eq_true, if_false, if_true]
    rw [movedLogs_cons_not_moved _ _ hb1, movedLogs_cons_not_moved _ _ hb1,
      movedLogs_append, movedLogs_append, movedLogs_printLog_nil _ hb2]
    simp only [List.append_nil]
    exact runEntries_movedLogs_indep c w entries dirs₁ dirs₂

/-- Witness for C8: the same simulate run planned against the directory state before
and after the first run created `dl/Downloaded Images`. -/
theorem simulate_idempotent_witness :
    movedLogs (organize_downloads ⟨true, 3, ["dl"]⟩
        ⟨0, true, fun _ => false, fun _ => true, fun _ => true⟩ []
        [⟨"a.jpg", EKind.file, some 0⟩]) =
      movedLogs (organize_downloads ⟨true, 3, ["dl"]⟩
        ⟨0, true, fun _ => false, fun _ => true, fun _ => true⟩ [["dl", "Downloaded Images"]]
        [⟨"a.jpg", EKind.file, some 0⟩]) :=
  simulate_idempotent ⟨true, 3, ["dl"]⟩ ⟨0, true, fun _ => false, fun _ => true, fun _ => true⟩
    [] [["dl", "Downloaded Images"]] [⟨"a.jpg", EKind.file, some 0⟩] rfl

/-- C6 counterexample: moving two distinct files named `a.jpg` (contents 1 and 2)
into the same destination leaves only the second — the first does not end up
present, contradicting "both end up present and recoverable". -/
theorem collision_overwrite_counterexample :
    ("a.jpg", 1) ∉ shutil_move_into (shutil_move_into [] ("a.jpg", 1)) ("a.jpg", 2) ∧
    ("a.jpg", 2) ∈ shutil_move_into (shutil_move_into [] ("a.jpg", 1)) ("a.jpg", 2) := by
  decide

/-- C6 amended: the source applies no collision policy — `shutil.move` to an
occupied destination silently replaces: after moving `g`, any distinct file `f`
bearing the same name is gone from the destination while `g` is present. -/
theorem collision_silent_overwrite (dest : List (String × Nat)) (f g : String × Nat)
    (hsame : f.1 = g.1) (hne : f ≠ g) :
    f ∉ shutil_move_into dest g ∧ g ∈ shutil_move_into dest g := by
  constructor
  · intro hmem
    simp only [shutil_move_into, List.mem_cons, List.mem_filter, bne_iff_ne, ne_eq] at hmem
    rcases hmem with rfl | ⟨_, hb⟩
    · exact hne rfl
    · exact hb hsame
  · simp [shutil_move_into]

/-- Witness for C6's amended theorem at the concrete collision. -/
theorem collision_silent_overwrite_witness :
    ("a.jpg", 1) ∉ shutil_move_into [("a.jpg", 1), ("b.png", 7)] ("a.jpg", 2) ∧
    ("a.jpg", 2) ∈ shutil_move_into [("a.jpg", 1), ("b.png", 7)] ("a.jpg", 2) :=
  collision_silent_overwrite [("a.jpg", 1), ("b.png", 7)] ("a.jpg", 1) ("a.jpg", 2)
    rfl (by decide)

/-- Witness for C2 at a concrete threshold and clock. -/
theorem file_has_expired_correct_witness :
    ((file_has_expired ⟨false, 3, []⟩ 10000000 (some 0)).1 = true ↔
      (10000000 : Int) - 0 ≥ 3 * 2592000) ∧
    (file_has_expired ⟨false, 3, []⟩ 10000000 (some 0)).2 = formatDate 0 :=
  file_has_expired_correct ⟨false, 3, []⟩ 10000000 0
